import Mathlib

/-!
# Shallow embedding of the OctoBoard scripts (`app.py`, `gui.py`)

This file embeds the code-to-Trello synchronisation program consisting of
`app.py` (the orchestrator `main`, the Trello helpers `create_board`,
`create_list`, `create_card`, the board updater `update_board`, the digest
builder `scan_codebase`, and the suggestion generator
`get_trello_json_from_gemini`) and `gui.py` (the web-form front end).

External HTTP / LLM calls are abstracted as an `Env` of call outcomes; the
Python control flow (including its treatment of unbound local variables,
`try`/bare-`except` blocks and `sys.exit`) is translated faithfully.  All
line numbers in doc comments refer to `app.py` unless stated otherwise.
-/

/-- A card object as read by `main` from the generator's JSON: the code
accesses the fields with `card.get('name', ...)` / `card.get('description', ...)`,
so both fields are optional. -/
structure CardSpec where
  name : Option String
  description : Option String
deriving Repr, DecidableEq

/-- A list object as read by `main`: `trello_list.get('name', ...)`,
`trello_list.get('cards', [])`. -/
structure ListSpec where
  name : Option String
  cards : Option (List CardSpec)
deriving Repr, DecidableEq

/-- The generator's board object: `trello_data.get('lists', [])`; the
`boardName` field is part of the schema the prompt requests. -/
structure BoardSpec where
  boardName : Option String
  lists : Option (List ListSpec)
deriving Repr, DecidableEq

/-- Python runtime outcomes relevant to `main`:
`http` for a `requests` exception / `raise_for_status`, `nameError` for
reading an unbound local variable, `exit` for `sys.exit(1)`. -/
inductive PyErr where
  | http (msg : String)
  | nameError (var : String)
  | exit
deriving Repr, DecidableEq

/-- The Trello mutations the program can perform, one per HTTP helper:
`create_board` (line 112), `create_list` (line 123), `create_card` (line 132).
`UpdateCard` is the update operation named by the specification's Reconciler
contract; `app.py` contains no corresponding API call, and the embedding
shows it is never emitted. -/
inductive Mutation where
  | CreateBoard (name : String)
  | CreateList (boardId name : String)
  | CreateCard (listId name desc : String)
  | UpdateCard (cardId name desc : String)
deriving Repr, DecidableEq

/-- `true` exactly on `UpdateCard` mutations. -/
def Mutation.isUpdate : Mutation → Bool
  | .UpdateCard _ _ _ => true
  | _ => false

/-- Outcomes of the remote calls `main` performs, one field per distinct
call site.  `lookupBoards` bundles lines 298-301 (`members/me` then the
account's board list as (name, id) pairs); `getBoardName` is the per-id
re-fetch of lines 312-315; `updateFetch` is `update_board`'s fetch of the
board's lists and cards into the `data` mapping card-id -> description
(lines 26-38); `gemini` is the LLM call, taking `some data` when invoked
from `update_board` and `none` when invoked from
`get_trello_json_from_gemini` (its `sys.exit(1)` outcomes appear as
`.error .exit`); `createBoard`, `createList`, `createCard` return the
created entity's id or the `raise_for_status` error. -/
structure Env where
  lookupBoards : Except PyErr (List (String × String))
  getBoardName : String → Except PyErr String
  updateFetch : String → Except PyErr (List (String × String))
  gemini : Option (List (String × String)) → Except PyErr BoardSpec
  createBoard : String → Except PyErr String
  createList : String → String → Except PyErr String
  createCard : String → String → String → Except PyErr String

/-- Result of a Python loop over lists: the mutations performed, the
outcome (an uncaught exception or normal completion), and the final values
of the local variables `trello_list` and `list_id` (`none` = unbound). -/
structure LoopState where
  log : List Mutation
  outcome : Except PyErr Unit
  trelloList : Option ListSpec
  listId : Option String
deriving Repr

/-- Lines 323-326 and 342-345: `for card in ...: create_card(list_id, name, desc)`.
Returns the card mutations performed up to the first failure. -/
def cardsLoop (createCard : String → String → String → Except PyErr String)
    (listId : String) : List CardSpec → List Mutation × Except PyErr Unit
  | [] => ([], .ok ())
  | c :: rest =>
    let n := c.name.getD "Unnamed Card"
    let d := c.description.getD "No description."
    match createCard listId n d with
    | .error e => ([], .error e)
    | .ok _ =>
      let r := cardsLoop createCard listId rest
      (.CreateCard listId n d :: r.1, r.2)

/-- Lines 320-326 (update path): `for trello_list in ...:` create the list,
then — properly nested inside the same iteration — create its cards.
Tracks the loop locals `trello_list` / `list_id`. -/
def updatePopulate (createList : String → String → Except PyErr String)
    (createCard : String → String → String → Except PyErr String)
    (boardId : String) :
    List ListSpec → Option ListSpec → Option String → LoopState
  | [], tl, lid => ⟨[], .ok (), tl, lid⟩
  | l :: rest, _, lid =>
    let nm := l.name.getD "Unnamed List"
    match createList boardId nm with
    | .error e => ⟨[], .error e, some l, lid⟩
    | .ok newId =>
      let cr := cardsLoop createCard newId (l.cards.getD [])
      match cr.2 with
      | .error e => ⟨.CreateList boardId nm :: cr.1, .error e, some l, some newId⟩
      | .ok _ =>
        let r := updatePopulate createList createCard boardId rest (some l) (some newId)
        ⟨.CreateList boardId nm :: (cr.1 ++ r.log), r.outcome, r.trelloList, r.listId⟩

/-- Lines 338-340 (create path): `for trello_list in ...:` create the list —
and nothing else; in this loop no card is created. -/
def createListsLoop (createList : String → String → Except PyErr String)
    (boardId : String) :
    List ListSpec → Option ListSpec → Option String → LoopState
  | [], tl, lid => ⟨[], .ok (), tl, lid⟩
  | l :: rest, _, lid =>
    let nm := l.name.getD "Unnamed List"
    match createList boardId nm with
    | .error e => ⟨[], .error e, some l, lid⟩
    | .ok newId =>
      let r := createListsLoop createList boardId rest (some l) (some newId)
      ⟨.CreateList boardId nm :: r.log, r.outcome, r.trelloList, r.listId⟩

/-- Lines 342-345: the card loop of the create path sits at the same
indentation level as the list loop, i.e. it runs once, AFTER the list loop
has completed, over the leftover value of `trello_list`.  Evaluating
`trello_list.get('cards', [])` raises `NameError` when that local is
unbound; the loop body additionally needs `list_id`. -/
def hoistedCardsLoop (createCard : String → String → String → Except PyErr String)
    (tl : Option ListSpec) (lid : Option String) :
    List Mutation × Except PyErr Unit :=
  match tl with
  | none => ([], .error (.nameError "trello_list"))
  | some l =>
    match l.cards.getD [] with
    | [] => ([], .ok ())
    | c :: cs =>
      match lid with
      | some i => cardsLoop createCard i (c :: cs)
      | none => ([], .error (.nameError "list_id"))

/-- Lines 25-105, `update_board`: fetch the board's lists and cards into
`data` (card id -> description) and ask Gemini for the updated board JSON
(passing the existing-card mapping in the prompt). -/
def update_board (env : Env) (boardId : String) : Except PyErr BoardSpec :=
  match env.updateFetch boardId with
  | .error e => .error e
  | .ok data => env.gemini (some data)

/-- Lines 311-327: the `try` block of the update path.  The per-id re-fetch
(lines 312-314), the name re-check (line 315: a mismatch clears
`board_exists`, after which line 320 reads the unbound local `trello_data`
and raises `NameError`), `update_board`, and the nested populate loops. -/
def updateTry (env : Env) (boardName boardId : String) : LoopState :=
  match env.getBoardName boardId with
  | .error e => ⟨[], .error e, none, none⟩
  | .ok actual =>
    if actual ≠ boardName then
      ⟨[], .error (.nameError "trello_data"), none, none⟩
    else
      match update_board env boardId with
      | .error e => ⟨[], .error e, none, none⟩
      | .ok spec => updatePopulate env.createList env.createCard boardId
          (spec.lists.getD []) none none

/-- Lines 332-345: the create path.  `get_trello_json_from_gemini` (whose
`sys.exit(1)` aborts the run here — nothing catches it), `create_board`
(line 335; a failure propagates), the list loop, then the hoisted card
loop over the leftover `trello_list` / `list_id` locals (which may retain
bindings from an earlier update-path loop in the same invocation). -/
def createCycle (env : Env) (boardName : String)
    (tl : Option ListSpec) (lid : Option String) :
    List Mutation × Except PyErr Unit :=
  match env.gemini none with
  | .error e => ([], .error e)
  | .ok spec =>
    match env.createBoard boardName with
    | .error e => ([], .error e)
    | .ok boardId =>
      let r := createListsLoop env.createList boardId (spec.lists.getD []) tl lid
      match r.outcome with
      | .error e => (.CreateBoard boardName :: r.log, .error e)
      | .ok _ =>
        let h := hoistedCardsLoop env.createCard r.trelloList r.listId
        (.CreateBoard boardName :: (r.log ++ h.1), h.2)

/-- Lines 302-306: scan the account's boards for an exact name match,
breaking at the first hit (`board['name'] == board_name`). -/
def findBoard (boards : List (String × String)) (boardName : String) :
    Option (String × String) :=
  boards.find? (fun b => b.1 == boardName)

/-- Lines 298-349 of `main`, after the codebase scan.  Lines 298-301 list
the account's boards (an exception propagates — the calls are outside any
`try`).  If no board matches, line 308 reads the local `board_exists`,
which was only ever assigned inside the matching branch of the loop, so
the run dies with `NameError` (`cached_board_id` is likewise unbound).
If a board matches, the update path runs inside `try`; its bare `except`
(line 328) catches every exception — including `SystemExit` — clears
`board_exists`, and control falls into the create path with the loop
locals left as the failed update attempt bound them. -/
def mainRun (env : Env) (boardName : String) :
    List Mutation × Except PyErr Unit :=
  match env.lookupBoards with
  | .error e => ([], .error e)
  | .ok boards =>
    match findBoard boards boardName with
    | none => ([], .error (.nameError "board_exists"))
    | some b =>
      let r := updateTry env boardName b.2
      match r.outcome with
      | .ok _ => (r.log, .ok ())
      | .error _ =>
        let c := createCycle env boardName r.trelloList r.listId
        (r.log ++ c.1, c.2)

/-- Characters Python's `str.strip()` removes. -/
def pyIsSpace (c : Char) : Bool :=
  c = ' ' || c = '\t' || c = '\n' || c = '\r' || c = '\x0b' || c = '\x0c'

/-- Model of Python `str.split(sep)` for a one-character separator, at the
character-list level. -/
def splitChars (sep : Char) : List Char → List (List Char)
  | [] => [[]]
  | c :: cs =>
    match splitChars sep cs with
    | [] => if c = sep then [[], []] else [[c]]
    | h :: t => if c = sep then [] :: h :: t else (c :: h) :: t

/-- Model of Python `str.split(sep)` (one-character separator). -/
def pySplit (s : String) (sep : Char) : List String :=
  (splitChars sep s.toList).map String.mk

/-- Model of Python `str.endswith`: the pattern is a character-suffix of
the string. -/
def pyEndswith (s pat : String) : Bool :=
  pat.toList.isSuffixOf s.toList

/-- Model of Python `s[:-4]`: drop the last four characters. -/
def pyDropLast4 (s : String) : String :=
  String.mk (s.toList.take (s.toList.length - 4))

/-- Model of Python `str.strip()`: drop leading and trailing whitespace. -/
def pyStrip (s : String) : String :=
  String.mk (((s.toList.dropWhile pyIsSpace).reverse.dropWhile pyIsSpace).reverse)

/-- Left-to-right non-overlapping replacement of a nonempty pattern,
fuel-bounded (fuel = input length suffices: every step consumes a
character). -/
def replCharsFuel (pat repl : List Char) : Nat → List Char → List Char
  | 0, cs => cs
  | _ + 1, [] => []
  | fuel + 1, c :: cs =>
    if pat.isPrefixOf (c :: cs) then
      repl ++ replCharsFuel pat repl fuel (cs.drop (pat.length - 1))
    else
      c :: replCharsFuel pat repl fuel cs

/-- Model of Python `str.replace(pat, repl)` (replace all occurrences,
left to right; an empty pattern is treated as a no-op, which is all the
embedded code exercises). -/
def pyReplace (s pat repl : String) : String :=
  match pat.toList with
  | [] => s
  | _ :: _ => String.mk (replCharsFuel pat.toList repl.toList s.toList.length s.toList)

/-- Lines 268-273: the board name is `github_url.split('/')[-1]` with a
trailing `.git` stripped (`board_name[:-4]`), or the last
`os.sep`-separated component of `os.getcwd()` when no URL is supplied
(`os.sep` is "/" on the deployment platform). -/
def deriveBoardName (githubUrl : Option String) (cwd : String) : String :=
  match githubUrl with
  | some url =>
    let b := (pySplit url '/').getLastD ""
    if pyEndswith b ".git" then pyDropLast4 b else b
  | none => (pySplit cwd '/').getLastD ""

/-- `main` from the board-name derivation onwards (the scan and clone steps
are modelled separately by `mainSetup`). -/
def mainFull (env : Env) (githubUrl : Option String) (cwd : String) :
    List Mutation × Except PyErr Unit :=
  mainRun env (deriveBoardName githubUrl cwd)

/-- Model of Python `str.startswith`: the pattern is a character-prefix of
the string. -/
def pyStartswith (s pat : String) : Bool :=
  pat.toList.isPrefixOf s.toList

/-- The filesystem-level steps of `main` (lines 282-296), in order:
`mkdir -p` and `git clone` into the scratch location, the codebase scan,
and the `rm -rf` removal, which line 295 guards by
`repo_destination.startswith("github_repos")`. -/
inductive SetupAction where
  | mkdirp (dest : String)
  | gitClone (url dest : String)
  | scanDir (dest : String)
  | removeDir (dest : String)
deriving Repr, DecidableEq

/-- Lines 282-290: `os.path.join("github_repos", urid)` with
`urid = str(uuid.uuid4())` when a URL is given, else `"."`. -/
def repoDestination (githubUrl : Option String) (urid : String) : String :=
  match githubUrl with
  | some _ => "github_repos/" ++ urid
  | none => "."

/-- Lines 282-296 as an action sequence: clone steps only when a URL was
given; the scan always; the removal exactly when the destination starts
with `"github_repos"`. -/
def mainSetup (githubUrl : Option String) (urid : String) : List SetupAction :=
  let dest := repoDestination githubUrl urid
  (match githubUrl with
   | some url => [.mkdirp dest, .gitClone url dest]
   | none => []) ++
  [.scanDir dest] ++
  (if pyStartswith dest "github_repos" then [.removeDir dest] else [])

/-- `gui.py` lines 10-13: on submit, the handler calls
`main(trello_api_key, trello_token, status)`.  The form's `github_url`
text-input value (line 7) is not among the arguments, so `main`'s
`github_url` parameter takes its default `None` regardless of what the
user typed. -/
def guiSubmitUrlArgument (_formGithubUrl : String) : Option String := none

/-- The outcome of opening and reading one file in `scan_codebase`
(lines 180-186): either the file's text, or the message of the raised
exception. -/
inductive FileData where
  | content (text : String)
  | unreadable (err : String)
deriving Repr, DecidableEq

/-- One file met by the `scan_codebase` walk: its base name (matched
against `ignore_files`), its joined path, its `os.path.getsize` result,
and its read outcome. -/
structure SFile where
  name : String
  path : String
  size : Nat
  data : FileData
deriving Repr, DecidableEq

/-- Line 150: `ignore_files = {'package-lock.json', '.env'}`. -/
def ignore_files : List String := ["package-lock.json", ".env"]

/-- Line 143: `max_file_size=10000`, the default used by `main`'s call
`scan_codebase(repo_destination)`. -/
def maxFileSizeDefault : Nat := 10000

/-- Lines 173-186: the `file_contents` entry for one file.  The size test
is strict (`os.path.getsize(file_path) > max_file_size`), so a file whose
size equals the threshold is read in full; one byte over gets the
truncation marker and its content is never opened.  A read error is folded
into the digest as text. -/
def scanFileEntry (maxFileSize : Nat) (f : SFile) : String :=
  if f.size > maxFileSize then
    "--- Content of " ++ f.path ++ " (truncated) ---\nFile is too large, skipping content.\n"
  else
    match f.data with
    | .content c => "--- Content of " ++ f.path ++ " ---\n" ++ c ++ "\n"
    | .unreadable e => "--- Could not read " ++ f.path ++ ": " ++ e ++ " ---\n"

/-- Lines 167-186: the `file_contents` entries contributed by the files of
one directory, in walk order; files in `ignore_files` are skipped
(line 168 `continue`), and a per-file read error never stops the loop. -/
def scanFilesContents (maxFileSize : Nat) : List SFile → List String
  | [] => []
  | f :: rest =>
    if f.name ∈ ignore_files then scanFilesContents maxFileSize rest
    else scanFileEntry maxFileSize f :: scanFilesContents maxFileSize rest

/-- JSON values as produced by Python's `json.loads`.  Numbers keep their
source lexeme (the schema questions below never inspect numeric values);
object fields keep parse order, later duplicates shadowing earlier ones as
in a Python dict (see `jsonLookup`). -/
inductive Json where
  | null
  | bool (b : Bool)
  | num (lexeme : String)
  | str (s : String)
  | arr (elems : List Json)
  | obj (fields : List (String × Json))
deriving Repr

/-- JSON whitespace. -/
def isJsonWs (c : Char) : Bool :=
  c = ' ' || c = '\t' || c = '\n' || c = '\r'

/-- Drop leading JSON whitespace. -/
def skipWs : List Char → List Char
  | [] => []
  | c :: cs => if isJsonWs c then skipWs cs else c :: cs

/-- Value of one hex digit. -/
def parseHexDigit (c : Char) : Option Nat :=
  if '0' ≤ c ∧ c ≤ '9' then some (c.toNat - '0'.toNat)
  else if 'a' ≤ c ∧ c ≤ 'f' then some (c.toNat - 'a'.toNat + 10)
  else if 'A' ≤ c ∧ c ≤ 'F' then some (c.toNat - 'A'.toNat + 10)
  else none

/-- Body of a JSON string after the opening quote: standard escapes,
`\uXXXX`, and (as in `json.loads`' strict default) no raw control
characters.  Returns the decoded string and the remaining input. -/
def parseStringChars (fuel : Nat) (acc : List Char) (cs : List Char) :
    Option (String × List Char) :=
  match fuel with
  | 0 => none
  | fuel + 1 =>
    match cs with
    | [] => none
    | '"' :: rest => some (String.mk acc.reverse, rest)
    | '\\' :: e :: rest =>
      match e with
      | '"' => parseStringChars fuel ('"' :: acc) rest
      | '\\' => parseStringChars fuel ('\\' :: acc) rest
      | '/' => parseStringChars fuel ('/' :: acc) rest
      | 'b' => parseStringChars fuel ('\x08' :: acc) rest
      | 'f' => parseStringChars fuel ('\x0c' :: acc) rest
      | 'n' => parseStringChars fuel ('\n' :: acc) rest
      | 'r' => parseStringChars fuel ('\r' :: acc) rest
      | 't' => parseStringChars fuel ('\t' :: acc) rest
      | 'u' =>
        match rest with
        | a :: b :: c :: d :: rest2 =>
          match parseHexDigit a, parseHexDigit b, parseHexDigit c, parseHexDigit d with
          | some ha, some hb, some hc, some hd =>
            parseStringChars fuel
              (Char.ofNat (((ha * 16 + hb) * 16 + hc) * 16 + hd) :: acc) rest2
          | _, _, _, _ => none
        | _ => none
      | _ => none
    | c :: rest =>
      if c.toNat < 0x20 then none
      else parseStringChars fuel (c :: acc) rest

/-- Split a maximal run of decimal digits off the front. -/
def takeDigits : List Char → List Char × List Char
  | [] => ([], [])
  | c :: cs =>
    if c.isDigit then
      let r := takeDigits cs
      (c :: r.1, r.2)
    else ([], c :: cs)

/-- JSON integer part: `0`, or a nonzero digit followed by digits. -/
def parseIntPart : List Char → Option (List Char × List Char)
  | [] => none
  | '0' :: cs => some (['0'], cs)
  | c :: cs =>
    if c.isDigit then
      let r := takeDigits cs
      some (c :: r.1, r.2)
    else none

/-- Optional JSON fraction part. -/
def parseFrac : List Char → Option (List Char × List Char)
  | '.' :: cs =>
    let r := takeDigits cs
    if r.1.isEmpty then none else some ('.' :: r.1, r.2)
  | cs => some ([], cs)

/-- Optional JSON exponent part. -/
def parseExp : List Char → Option (List Char × List Char)
  | [] => some ([], [])
  | c :: cs =>
    if c = 'e' ∨ c = 'E' then
      match cs with
      | [] => none
      | s :: cs2 =>
        if s = '+' ∨ s = '-' then
          let r := takeDigits cs2
          if r.1.isEmpty then none else some (c :: s :: r.1, r.2)
        else
          let r := takeDigits (s :: cs2)
          if r.1.isEmpty then none else some (c :: r.1, r.2)
    else some ([], c :: cs)

/-- A JSON number lexeme. -/
def parseNumber (cs : List Char) : Option (String × List Char) :=
  let sign : List Char × List Char :=
    match cs with
    | '-' :: rest => (['-'], rest)
    | _ => ([], cs)
  match parseIntPart sign.2 with
  | none => none
  | some (ip, cs2) =>
    match parseFrac cs2 with
    | none => none
    | some (fp, cs3) =>
      match parseExp cs3 with
      | none => none
      | some (ep, cs4) => some (String.mk (sign.1 ++ ip ++ fp ++ ep), cs4)

/-- Consume an exact literal character sequence. -/
def stripLitChars : List Char → List Char → Option (List Char)
  | [], cs => some cs
  | _ :: _, [] => none
  | p :: ps, c :: cs => if p = c then stripLitChars ps cs else none

mutual

/-- One JSON value (after optional leading whitespace), fuel-bounded.
Follows the `json.loads` grammar, including its default acceptance of the
non-standard constants `NaN`, `Infinity` and `-Infinity`. -/
def parseValue : Nat → List Char → Option (Json × List Char)
  | 0, _ => none
  | fuel + 1, cs =>
    match skipWs cs with
    | [] => none
    | '"' :: rest =>
      match parseStringChars (rest.length + 1) [] rest with
      | none => none
      | some (s, rest2) => some (.str s, rest2)
    | '{' :: rest =>
      match skipWs rest with
      | '}' :: rest2 => some (.obj [], rest2)
      | cs2 => parseMembers fuel cs2 []
    | '[' :: rest =>
      match skipWs rest with
      | ']' :: rest2 => some (.arr [], rest2)
      | cs2 => parseElements fuel cs2 []
    | 't' :: rest =>
      match stripLitChars ['r', 'u', 'e'] rest with
      | some rest2 => some (.bool true, rest2)
      | none => none
    | 'f' :: rest =>
      match stripLitChars ['a', 'l', 's', 'e'] rest with
      | some rest2 => some (.bool false, rest2)
      | none => none
    | 'n' :: rest =>
      match stripLitChars ['u', 'l', 'l'] rest with
      | some rest2 => some (.null, rest2)
      | none => none
    | 'N' :: rest =>
      match stripLitChars ['a', 'N'] rest with
      | some rest2 => some (.num "NaN", rest2)
      | none => none
    | 'I' :: rest =>
      match stripLitChars ['n', 'f', 'i', 'n', 'i', 't', 'y'] rest with
      | some rest2 => some (.num "Infinity", rest2)
      | none => none
    | '-' :: rest =>
      match rest with
      | 'I' :: rest2 =>
        match stripLitChars ['n', 'f', 'i', 'n', 'i', 't', 'y'] rest2 with
        | some rest3 => some (.num "-Infinity", rest3)
        | none => none
      | _ =>
        match parseNumber ('-' :: rest) with
        | some (s, rest2) => some (.num s, rest2)
        | none => none
    | c :: rest =>
      if c.isDigit then
        match parseNumber (c :: rest) with
        | some (s, rest2) => some (.num s, rest2)
        | none => none
      else none

/-- Array elements after `[` (first element pending). -/
def parseElements : Nat → List Char → List Json → Option (Json × List Char)
  | 0, _, _ => none
  | fuel + 1, cs, acc =>
    match parseValue fuel cs with
    | none => none
    | some (j, rest) =>
      match skipWs rest with
      | ',' :: rest2 => parseElements fuel rest2 (j :: acc)
      | ']' :: rest2 => some (.arr (j :: acc).reverse, rest2)
      | _ => none

/-- Object members after `{` (first member pending). -/
def parseMembers : Nat → List Char → List (String × Json) →
    Option (Json × List Char)
  | 0, _, _ => none
  | fuel + 1, cs, acc =>
    match skipWs cs with
    | '"' :: rest =>
      match parseStringChars (rest.length + 1) [] rest with
      | none => none
      | some (k, rest2) =>
        match skipWs rest2 with
        | ':' :: rest3 =>
          match parseValue fuel rest3 with
          | none => none
          | some (v, rest4) =>
            match skipWs rest4 with
            | ',' :: rest5 => parseMembers fuel rest5 ((k, v) :: acc)
            | '}' :: rest5 => some (.obj ((k, v) :: acc).reverse, rest5)
            | _ => none
        | _ => none
    | _ => none

end

/-- Model of Python `json.loads`: parse one JSON document and require the
whole input to be consumed.  The fuel bound is generous — every recursive
step consumes at least one input character. -/
def jsonLoads (s : String) : Option Json :=
  let cs := s.toList
  match parseValue (2 * cs.length + 2) cs with
  | none => none
  | some (j, rest) => if (skipWs rest).isEmpty then some j else none

/-- Lines 247-249: `response.text if response.text else ""`, then
`.strip().replace("```json", "").replace("```", "").strip()`. -/
def cleanReply (s : String) : String :=
  pyStrip (pyReplace (pyReplace (pyStrip s) "```json" "") "```" "")

/-- Lines 191-255, `get_trello_json_from_gemini`, as a function of the
credential and the LLM call's outcome (`.error` when
`client.models.generate_content` raises; otherwise `response.text`, which
the SDK may leave empty — `none`).  The function either aborts the whole
run via `sys.exit(1)` (modelled `.error ()`) — on an absent/placeholder
key (lines 194-196) or inside the `except` that covers both the call and
`json.loads` (lines 240-255) — or returns whatever value `json.loads`
produced for the cleaned reply.  No further validation of that value is
performed. -/
def get_trello_json_from_gemini (apiKey : String)
    (callResult : Except String (Option String)) : Except Unit Json :=
  if apiKey == "" || pyStartswith apiKey "PASTE_" then .error ()
  else
    match callResult with
    | .error _ => .error ()
    | .ok t =>
      match jsonLoads (cleanReply (t.getD "")) with
      | none => .error ()
      | some j => .ok j

/-- `true` exactly when the generator aborted the run (`sys.exit(1)`). -/
def genFailed : Except Unit Json → Bool
  | .error _ => true
  | .ok _ => false

/-- Python-dict lookup on parsed object fields: the last binding of a key
wins, as in the dict `json.loads` builds. -/
def jsonLookup (fields : List (String × Json)) (key : String) : Option Json :=
  (fields.filterMap fun p => if p.1 == key then some p.2 else none).getLast?

/-- Modelled from the spec: a card object of the required schema,
`{name, description}` with string values (§3 CardSpec). -/
def cardConforms : Json → Bool
  | .obj fs =>
    (match jsonLookup fs "name" with
     | some (.str _) => true
     | _ => false) &&
    (match jsonLookup fs "description" with
     | some (.str _) => true
     | _ => false)
  | _ => false

/-- Modelled from the spec: a list object of the required schema,
`{name: string, cards: array of card objects}`. -/
def listConforms : Json → Bool
  | .obj fs =>
    (match jsonLookup fs "name" with
     | some (.str _) => true
     | _ => false) &&
    (match jsonLookup fs "cards" with
     | some (.arr cs) => cs.all cardConforms
     | _ => false)
  | _ => false

/-- Modelled from the spec: the required reply schema — an object with
`boardName: string` and `lists: array` of list objects (§4.1). -/
def conformsToSpecSchema : Json → Bool
  | .obj fs =>
    (match jsonLookup fs "boardName" with
     | some (.str _) => true
     | _ => false) &&
    (match jsonLookup fs "lists" with
     | some (.arr ls) => ls.all listConforms
     | _ => false)
  | _ => false

/-- Modelled from the spec: the claimed failure condition of the
generator — absent/placeholder credential, erroring call, or a cleaned
reply that does not parse as the required schema. -/
def c5ClaimedFailCond (apiKey : String)
    (callResult : Except String (Option String)) : Bool :=
  apiKey == "" || pyStartswith apiKey "PASTE_" ||
  (match callResult with
   | .error _ => true
   | .ok t =>
     match jsonLoads (cleanReply (t.getD "")) with
     | none => true
     | some j => !conformsToSpecSchema j)

/-- The failure condition the code actually implements: absent/placeholder
credential, erroring call, or a cleaned reply that `json.loads` rejects —
schema conformance is never checked. -/
def c5ActualFailCond (apiKey : String)
    (callResult : Except String (Option String)) : Bool :=
  apiKey == "" || pyStartswith apiKey "PASTE_" ||
  (match callResult with
   | .error _ => true
   | .ok t => (jsonLoads (cleanReply (t.getD ""))).isNone)

/-- `true` exactly on `CreateCard` mutations. -/
def Mutation.isCreateCardMut : Mutation → Bool
  | .CreateCard _ _ _ => true
  | _ => false

/-- `true` on `CreateList` and `CreateCard` mutations — the only kinds the
populate loops can perform. -/
def Mutation.isListOrCardMut : Mutation → Bool
  | .CreateList _ _ => true
  | .CreateCard _ _ _ => true
  | _ => false

/-- `true` unless the mutation is a `CreateBoard` carrying a name other
than `b`. -/
def boardNameOk (b : String) : Mutation → Bool
  | .CreateBoard nm => nm == b
  | _ => true

/-- Σ of the per-list card counts of a generated board. -/
def specCardCount (s : BoardSpec) : Nat :=
  ((s.lists.getD []).map fun l => (l.cards.getD []).length).sum

/-- Number of lists of a generated board. -/
def specListCount (s : BoardSpec) : Nat := (s.lists.getD []).length

/-- `env` with every generator reply's `boardName` field rewritten by `f`
(everything else unchanged) — used to show the field never influences a
run. -/
def withGeminiMap (env : Env) (f : Option String → Option String) : Env :=
  { env with gemini := fun d => (env.gemini d).map fun s => ⟨f s.boardName, s.lists⟩ }

/-- Create-cycle scenario: two lists, the first holding one card, the
second none (N = 2, c_1 = 1, c_2 = 0). -/
def c1Spec : BoardSpec :=
  ⟨some "X", some [⟨some "A", some [⟨some "T", some "D"⟩]⟩, ⟨some "B", some []⟩]⟩

/-- Environment in which every Trello call succeeds and the generator
returns `c1Spec`. -/
def c1Env : Env :=
  { lookupBoards := .ok []
    getBoardName := fun _ => .error (.http "unused")
    updateFetch := fun _ => .error (.http "unused")
    gemini := fun _ => .ok c1Spec
    createBoard := fun _ => .ok "b1"
    createList := fun _ nm => .ok ("lid-" ++ nm)
    createCard := fun _ _ _ => .ok "cid" }

/-- Update-cycle reply whose only card's description exactly equals the
existing card's description (the spec's end-to-end scenario 2). -/
def c2SpecU : BoardSpec :=
  ⟨some "B", some [⟨some "L",
    some [⟨some "Validate login input", some "Add input validation to login"⟩]⟩]⟩

/-- Environment for an update cycle: the board `B` exists with one card
`c1` whose description is "Add input validation to login"; all calls
succeed. -/
def c2Env : Env :=
  { lookupBoards := .ok [("B", "bid")]
    getBoardName := fun _ => .ok "B"
    updateFetch := fun _ => .ok [("c1", "Add input validation to login")]
    gemini := fun _ => .ok c2SpecU
    createBoard := fun _ => .ok "nb"
    createList := fun b nm => .ok (b ++ "." ++ nm)
    createCard := fun _ _ _ => .ok "cid" }

/-- A perfectly well-formed generator reply for the lookup scenarios. -/
def c3Spec : BoardSpec := ⟨some "X", some [⟨some "L", some []⟩]⟩

/-- Environment in which the account owns no boards at all and every other
call — board creation included — would succeed. -/
def c3EnvNoBoards : Env :=
  { lookupBoards := .ok []
    getBoardName := fun _ => .ok "proj"
    updateFetch := fun _ => .ok []
    gemini := fun _ => .ok c3Spec
    createBoard := fun _ => .ok "nb"
    createList := fun _ _ => .ok "nl"
    createCard := fun _ _ _ => .ok "nc" }

/-- Same, but the list-boards lookup call fails transiently. -/
def c3EnvLookupFail : Env :=
  { c3EnvNoBoards with lookupBoards := .error (.http "timeout") }

/-- Update-cycle generator reply for the fallback scenario. -/
def c4SpecU : BoardSpec := ⟨some "B", some [⟨some "UL", some [⟨some "UC", some "UD"⟩]⟩]⟩

/-- Create-cycle generator reply for the fallback scenario. -/
def c4SpecC : BoardSpec := ⟨some "B", some [⟨some "CL", some [⟨some "CC", some "CD"⟩]⟩]⟩

/-- Environment in which the board `B` exists, the update path's card
creation fails (`create_card` returns HTTP 500 on the existing board's
lists, whose ids start with "bid"), and the create path succeeds. -/
def c4Env : Env :=
  { lookupBoards := .ok [("B", "bid")]
    getBoardName := fun _ => .ok "B"
    updateFetch := fun _ => .ok [("c1", "old")]
    gemini := fun d => match d with | some _ => .ok c4SpecU | none => .ok c4SpecC
    createBoard := fun _ => .ok "nb"
    createList := fun b nm => .ok (b ++ "." ++ nm)
    createCard := fun lid _ _ => if lid = "bid.UL" then .error (.http "500") else .ok "cid" }

/-- The spec's end-to-end scenario 1 reply: board name "X", no lists. -/
def c6Spec : BoardSpec := ⟨some "X", some []⟩

/-- Fresh-run environment for scenario 1: the account owns no boards, the
generator returns `c6Spec`, every Trello call would succeed. -/
def c6EnvA : Env :=
  { lookupBoards := .ok []
    getBoardName := fun _ => .ok "proj"
    updateFetch := fun _ => .ok []
    gemini := fun _ => .ok c6Spec
    createBoard := fun _ => .ok "nb"
    createList := fun _ _ => .ok "nl"
    createCard := fun _ _ _ => .ok "nc" }

/-- Variant reaching the create path through the update-path fallback
(the only way the code ever reaches it): the board exists but the
existing-cards fetch fails. -/
def c6EnvB : Env :=
  { c6EnvA with
    lookupBoards := .ok [("proj", "bid")]
    updateFetch := fun _ => .error (.http "503") }

lemma cardsLoop_all (p : Mutation → Bool)
    (hC : ∀ lid n d, p (.CreateCard lid n d) = true)
    (cc : String → String → String → Except PyErr String) (lid : String) :
    ∀ cs, ((cardsLoop cc lid cs).1.all p) = true := by
  intro cs
  induction cs with
  | nil => rfl
  | cons c rest ih =>
    simp only [cardsLoop]
    cases cc lid (c.name.getD "Unnamed Card") (c.description.getD "No description.") with
    | error e => rfl
    | ok i => simp [List.all_cons, hC, ih]

lemma createListsLoop_all (p : Mutation → Bool)
    (hL : ∀ b n, p (.CreateList b n) = true)
    (cl : String → String → Except PyErr String) (bid : String) :
    ∀ ls tl lid, (((createListsLoop cl bid ls tl lid).log.all p) = true) := by
  intro ls
  induction ls with
  | nil => intro tl lid; rfl
  | cons l rest ih =>
    intro tl lid
    simp only [createListsLoop]
    cases cl bid (l.name.getD "Unnamed List") with
    | error e => rfl
    | ok newId => simp [List.all_cons, hL, ih]

lemma updatePopulate_all (p : Mutation → Bool)
    (hL : ∀ b n, p (.CreateList b n) = true)
    (hC : ∀ lid n d, p (.CreateCard lid n d) = true)
    (cl : String → String → Except PyErr String)
    (cc : String → String → String → Except PyErr String) (bid : String) :
    ∀ ls tl lid, (((updatePopulate cl cc bid ls tl lid).log.all p) = true) := by
  intro ls
  induction ls with
  | nil => intro tl lid; rfl
  | cons l rest ih =>
    intro tl lid
    simp only [updatePopulate]
    cases cl bid (l.name.getD "Unnamed List") with
    | error e => rfl
    | ok newId =>
      cases h2 : (cardsLoop cc newId (l.cards.getD [])).2 with
      | error e =>
        simp [h2, List.all_cons, hL, cardsLoop_all p hC]
      | ok u =>
        simp [h2, List.all_cons, List.all_append, hL, cardsLoop_all p hC, ih]

lemma hoistedCardsLoop_all (p : Mutation → Bool)
    (hC : ∀ lid n d, p (.CreateCard lid n d) = true)
    (cc : String → String → String → Except PyErr String)
    (tl : Option ListSpec) (lid : Option String) :
    (((hoistedCardsLoop cc tl lid).1.all p) = true) := by
  cases tl with
  | none => rfl
  | some l =>
    simp only [hoistedCardsLoop]
    cases h : l.cards.getD [] with
    | nil => rfl
    | cons c cs =>
      cases lid with
      | none => rfl
      | some i => exact cardsLoop_all p hC cc i (c :: cs)

lemma updateTry_all (p : Mutation → Bool)
    (hL : ∀ b n, p (.CreateList b n) = true)
    (hC : ∀ lid n d, p (.CreateCard lid n d) = true)
    (env : Env) (b bid : String) :
    (((updateTry env b bid).log.all p) = true) := by
  simp only [updateTry]
  cases env.getBoardName bid with
  | error e => rfl
  | ok actual =>
    by_cases h : actual ≠ b
    · simp [h]
    · simp only [h, if_false]
      cases update_board env bid with
      | error e => rfl
      | ok spec => exact updatePopulate_all p hL hC _ _ bid _ none none

lemma createCycle_all (p : Mutation → Bool) (b : String)
    (hL : ∀ b n, p (.CreateList b n) = true)
    (hC : ∀ lid n d, p (.CreateCard lid n d) = true)
    (hB : p (.CreateBoard b) = true)
    (env : Env) (tl : Option ListSpec) (lid : Option String) :
    (((createCycle env b tl lid).1.all p) = true) := by
  simp only [createCycle]
  cases env.gemini none with
  | error e => rfl
  | ok spec =>
    cases env.createBoard b with
    | error e => rfl
    | ok bid =>
      cases h2 : (createListsLoop env.createList bid (spec.lists.getD []) tl lid).outcome with
      | error e =>
        simp [h2, List.all_cons, hB, createListsLoop_all p hL]
      | ok u =>
        simp [h2, List.all_cons, List.all_append, hB, createListsLoop_all p hL,
          hoistedCardsLoop_all p hC]

lemma mainRun_all (p : Mutation → Bool) (b : String)
    (hL : ∀ b n, p (.CreateList b n) = true)
    (hC : ∀ lid n d, p (.CreateCard lid n d) = true)
    (hB : p (.CreateBoard b) = true)
    (env : Env) :
    (((mainRun env b).1.all p) = true) := by
  unfold mainRun
  split
  · rfl
  · split
    · rfl
    · dsimp only
      split
      · exact updateTry_all p hL hC env b _
      · simp [List.all_append, updateTry_all p hL hC, createCycle_all p b hL hC hB]

lemma update_board_gemini_map (env : Env) (f : Option String → Option String) (bid : String) :
    update_board (withGeminiMap env f) bid =
      (update_board env bid).map fun s => ⟨f s.boardName, s.lists⟩ := by
  simp only [update_board, withGeminiMap]
  cases env.updateFetch bid <;> rfl

lemma updateTry_gemini_map (env : Env) (f : Option String → Option String) (b bid : String) :
    updateTry (withGeminiMap env f) b bid = updateTry env b bid := by
  cases hg : env.getBoardName bid with
  | error e => simp [updateTry, withGeminiMap, hg]
  | ok actual =>
    by_cases h : actual = b
    · subst h
      cases hu : env.updateFetch bid with
      | error e => simp [updateTry, update_board, withGeminiMap, hg, hu]
      | ok data =>
        cases hge : env.gemini (some data) with
        | error e =>
          simp [updateTry, update_board, withGeminiMap, hg, hu, hge, Except.map]
        | ok spec =>
          simp [updateTry, update_board, withGeminiMap, hg, hu, hge, Except.map]
    · simp [updateTry, withGeminiMap, hg, h]

lemma createCycle_gemini_map (env : Env) (f : Option String → Option String)
    (b : String) (tl : Option ListSpec) (lid : Option String) :
    createCycle (withGeminiMap env f) b tl lid = createCycle env b tl lid := by
  cases hge : env.gemini none with
  | error e => simp [createCycle, withGeminiMap, hge, Except.map]
  | ok spec =>
    cases hb : env.createBoard b with
    | error e => simp [createCycle, withGeminiMap, hge, hb, Except.map]
    | ok bid => simp [createCycle, withGeminiMap, hge, hb, Except.map]

lemma mainRun_gemini_map (env : Env) (f : Option String → Option String) (b : String) :
    mainRun (withGeminiMap env f) b = mainRun env b := by
  cases hl : env.lookupBoards with
  | error e => simp [mainRun, withGeminiMap, hl]
  | ok boards =>
    cases hf : findBoard boards b with
    | none => simp [mainRun, withGeminiMap, hl, hf]
    | some pr =>
      have h1 : (withGeminiMap env f).lookupBoards = env.lookupBoards := rfl
      simp only [mainRun, h1, hl, hf]
      simp only [updateTry_gemini_map env f b pr.2, createCycle_gemini_map env f b]

lemma pyStartswith_github (urid : String) :
    pyStartswith ("github_repos/" ++ urid) "github_repos" = true := by
  unfold pyStartswith
  simp only [List.isPrefixOf_iff_prefix]
  show "github_repos".data <+: ("github_repos/" ++ urid).data
  rw [String.data_append]
  have h : "github_repos/".data = "github_repos".data ++ ['/'] := rfl
  rw [h, List.append_assoc]
  exact List.prefix_append _ _

lemma string_append_left_cancel (s t u : String) (h : s ++ t = s ++ u) : t = u := by
  have h2 : (s ++ t).data = (s ++ u).data := congrArg String.data h
  rw [String.data_append, String.data_append] at h2
  have h3 : t.data = u.data := List.append_cancel_left h2
  cases t
  cases u
  exact congrArg String.mk h3

/-- C1: REFUTED on the code (code bug).  In a create cycle where every
remote call succeeds and the generator returns N = 2 lists with per-list
card counts c_1 = 1, c_2 = 0 (so Σc_i = 1), the run performs both list
creations but ZERO card creations and reports success: the card-creation
loop (lines 342-345) is hoisted after the loop over lists instead of being
scoped inside its owning list's iteration, so only the leftover last
list's cards are ever created. -/
theorem c1_create_cycle_drops_cards :
    createCycle c1Env "proj" none none =
      ([.CreateBoard "proj", .CreateList "b1" "A", .CreateList "b1" "B"], .ok ()) ∧
    specListCount c1Spec = 2 ∧ specCardCount c1Spec = 1 ∧
    ((createCycle c1Env "proj" none none).1.countP fun m => m.isCreateCardMut) = 0 :=
  ⟨rfl, rfl, rfl, rfl⟩

/-- C2: REFUTED on the code (code bug).  No run of `main` ever emits an
`UpdateCard` mutation — the program has no card-update API call at all.
In the concrete update cycle matching the spec's scenario 2 (existing card
"c1" with description "Add input validation to login", and a generated
card with exactly that description), the run emits a fresh `CreateCard`
with the matching description and no `UpdateCard` referencing "c1". -/
theorem c2_update_cycle_never_emits_update :
    (∀ (env : Env) (b : String),
      ((mainRun env b).1.all fun m => !m.isUpdate) = true) ∧
    mainRun c2Env "B" =
      ([.CreateList "bid" "L",
        .CreateCard "bid.L" "Validate login input" "Add input validation to login"],
       .ok ()) := by
  constructor
  · intro env b
    exact mainRun_all _ b (fun _ _ => rfl) (fun _ _ _ => rfl) rfl env
  · rfl

/-- C3: REFUTED on the code (code bug).  When the account owns no board
with the derived name, line 308 reads the never-assigned local
`board_exists` and the run dies with `NameError` — it never reaches the
create path, even though every call needed by that path would succeed.
When the list-boards lookup call itself fails transiently, the exception
propagates (the call is outside any `try`) and the run terminates. -/
theorem c3_board_not_found_crashes :
    mainRun c3EnvNoBoards "proj" = ([], .error (.nameError "board_exists")) ∧
    mainRun c3EnvLookupFail "proj" = ([], .error (.http "timeout")) :=
  ⟨rfl, rfl⟩

/-- C4: CONFIRMED.  Whenever the update path (the `try` block of lines
311-327) raises — in particular on any mutation-apply failure — the bare
`except` clears `board_exists` and the run continues with the create path:
it re-runs the generator without existing-card context (`gemini none`
inside `createCycle`), creates a new board, and populates it, instead of
aborting. -/
theorem c4_update_failure_falls_back (env : Env) (b : String)
    (boards : List (String × String)) (pr : String × String) (e : PyErr)
    (hlook : env.lookupBoards = .ok boards)
    (hfind : findBoard boards b = some pr)
    (hupd : (updateTry env b pr.2).outcome = .error e) :
    mainRun env b =
      ((updateTry env b pr.2).log ++
        (createCycle env b (updateTry env b pr.2).trelloList
          (updateTry env b pr.2).listId).1,
       (createCycle env b (updateTry env b pr.2).trelloList
          (updateTry env b pr.2).listId).2) := by
  simp [mainRun, hlook, hfind, hupd]

/-- Witness for C4: in `c4Env` the update path's card creation fails with
HTTP 500, and the run falls back to the create path — regenerated
suggestions, new board `nb`, populated. -/
theorem c4_update_failure_falls_back_witness :
    mainRun c4Env "B" =
      ([.CreateList "bid" "UL", .CreateBoard "B", .CreateList "nb" "CL",
        .CreateCard "nb.CL" "CC" "CD"], .ok ()) :=
  (c4_update_failure_falls_back c4Env "B" [("B", "bid")] ("B", "bid")
    (.http "500") rfl rfl rfl).trans rfl

/-- C5 counterexample: the reply `{"oops": 1}` is valid JSON but violates
the required schema; the claim says the generator must fail fatally on it,
yet the generator returns it successfully — the claimed failure condition
and the code's behaviour disagree at this input. -/
theorem c5_schema_violating_reply_not_rejected :
    ¬ (genFailed (get_trello_json_from_gemini "K" (.ok (some "\x7b\"oops\": 1\x7d"))) =
       c5ClaimedFailCond "K" (.ok (some "\x7b\"oops\": 1\x7d"))) := by
  decide

/-- C5 (amended): the generator fails fatally exactly when the credential
is absent or a placeholder, the underlying call errors, or the cleaned
reply is not valid JSON (`json.loads` rejects it); a reply that is valid
JSON but violates the required schema is returned without any validation.
No partial or lenient parsing of invalid JSON is attempted. -/
theorem c5_generator_failure_condition (apiKey : String)
    (callResult : Except String (Option String)) :
    genFailed (get_trello_json_from_gemini apiKey callResult) =
      c5ActualFailCond apiKey callResult := by
  unfold get_trello_json_from_gemini c5ActualFailCond
  by_cases h : (apiKey == "" || pyStartswith apiKey "PASTE_") = true
  · simp [h, genFailed]
  · simp only [Bool.not_eq_true] at h
    simp only [h, if_false, Bool.false_or]
    cases callResult with
    | error e => rfl
    | ok t =>
      cases hj : jsonLoads (cleanReply (t.getD "")) with
      | none => simp [hj, genFailed]
      | some j => simp [hj, genFailed]

/-- C6: REFUTED on the code (code bug).  Scenario 1 of the spec (generator
returns boardName "X" with an empty lists array): in a fresh run where no
board matches, the run dies at line 308 with `NameError` on `board_exists`
before creating any board.  Even on the only route by which the create
path is ever reached (fallback from a failed update path), the board is
created under the DERIVED name, not the returned "X", and the run then
crashes with `NameError` on the unbound loop variable `trello_list`
(line 342) because the lists array is empty. -/
theorem c6_empty_board_spec_run_crashes :
    mainRun c6EnvA (deriveBoardName none "/home/user/proj") =
      ([], .error (.nameError "board_exists")) ∧
    mainRun c6EnvB "proj" =
      ([.CreateBoard "proj"], .error (.nameError "trello_list")) :=
  ⟨rfl, rfl⟩

/-- C7: REFUTED on the code (code bug).  `gui.py` reads the form's GitHub
URL but calls `main(trello_api_key, trello_token, status)` without passing
it, so the core entry point receives `None` and the run scans the server's
current working directory — no clone of the submitted URL ever happens.
Had the URL been forwarded (third conjunct), the run would have cloned and
scanned it. -/
theorem c7_gui_url_not_forwarded :
    guiSubmitUrlArgument "https://github.com/u/repo.git" = none ∧
    mainSetup (guiSubmitUrlArgument "https://github.com/u/repo.git") "uuid-1" =
      [.scanDir "."] ∧
    mainSetup (some "https://github.com/u/repo.git") "uuid-1" =
      [.mkdirp "github_repos/uuid-1",
       .gitClone "https://github.com/u/repo.git" "github_repos/uuid-1",
       .scanDir "github_repos/uuid-1", .removeDir "github_repos/uuid-1"] := by
  refine ⟨rfl, rfl, ?_⟩
  decide

/-- C8: CONFIRMED.  A run with a remote URL clones into
`github_repos/<urid>` — distinct scratch directories for distinct uuids —
and the action sequence always removes that directory immediately after
the scan step; the scan itself (`scanFilesContents`) is total, folding
per-file failures into the digest, so the removal is reached whether the
scan's individual file reads succeed or fail. -/
theorem c8_clone_scratch_unique_and_removed (url urid urid2 : String)
    (h : urid ≠ urid2) :
    mainSetup (some url) urid =
      [.mkdirp ("github_repos/" ++ urid), .gitClone url ("github_repos/" ++ urid),
       .scanDir ("github_repos/" ++ urid), .removeDir ("github_repos/" ++ urid)] ∧
    repoDestination (some url) urid ≠ repoDestination (some url) urid2 := by
  constructor
  · simp [mainSetup, repoDestination, pyStartswith_github]
  · intro hc
    exact h (string_append_left_cancel "github_repos/" urid urid2 hc)

/-- Witness for C8 at a concrete URL and uuids. -/
theorem c8_clone_scratch_unique_and_removed_witness :
    mainSetup (some "https://x/y.git") "u1" =
      [.mkdirp ("github_repos/" ++ "u1"), .gitClone "https://x/y.git" ("github_repos/" ++ "u1"),
       .scanDir ("github_repos/" ++ "u1"), .removeDir ("github_repos/" ++ "u1")] ∧
    repoDestination (some "https://x/y.git") "u1" ≠
      repoDestination (some "https://x/y.git") "u2" :=
  c8_clone_scratch_unique_and_removed "https://x/y.git" "u1" "u2" (by decide)

/-- C9: CONFIRMED.  A file whose size exactly equals the threshold is
included in full; one byte over gets the truncation marker instead of its
content; an unreadable (but not oversized) file contributes an inline
error note while the entries for the files before and after it are
unaffected. -/
theorem c9_digest_threshold_and_errors (maxFileSize sz : Nat)
    (nm p c e : String) (d : FileData) (pre post : List SFile)
    (hn : nm ∉ ignore_files) (hsz : sz ≤ maxFileSize) :
    scanFileEntry maxFileSize ⟨nm, p, maxFileSize, .content c⟩ =
      "--- Content of " ++ p ++ " ---\n" ++ c ++ "\n" ∧
    scanFileEntry maxFileSize ⟨nm, p, maxFileSize + 1, d⟩ =
      "--- Content of " ++ p ++ " (truncated) ---\nFile is too large, skipping content.\n" ∧
    scanFilesContents maxFileSize (pre ++ ⟨nm, p, sz, .unreadable e⟩ :: post) =
      scanFilesContents maxFileSize pre ++
        ("--- Could not read " ++ p ++ ": " ++ e ++ " ---\n") ::
          scanFilesContents maxFileSize post := by
  have hlt : ¬ (sz > maxFileSize) := Nat.not_lt.mpr hsz
  refine ⟨?_, ?_, ?_⟩
  · simp [scanFileEntry]
  · simp [scanFileEntry]
  · induction pre with
    | nil => simp [scanFilesContents, hn, scanFileEntry, hlt]
    | cons f rest ih =>
      by_cases hf : f.name ∈ ignore_files <;>
        simp [scanFilesContents, hf, ih]

/-- Witness for C9: threshold 10000, a 5-byte unreadable file between two
readable siblings. -/
theorem c9_digest_threshold_and_errors_witness :
    scanFileEntry 10000 ⟨"a.py", "./a.py", 10000, .content "x"⟩ =
      "--- Content of " ++ "./a.py" ++ " ---\n" ++ "x" ++ "\n" ∧
    scanFileEntry 10000 ⟨"a.py", "./a.py", 10000 + 1, .content "big"⟩ =
      "--- Content of " ++ "./a.py" ++ " (truncated) ---\nFile is too large, skipping content.\n" ∧
    scanFilesContents 10000
        ([⟨"b.py", "./b.py", 3, .content "y"⟩] ++
          ⟨"a.py", "./a.py", 5, .unreadable "boom"⟩ ::
            [⟨"c.py", "./c.py", 4, .content "z"⟩]) =
      scanFilesContents 10000 [⟨"b.py", "./b.py", 3, .content "y"⟩] ++
        ("--- Could not read " ++ "./a.py" ++ ": " ++ "boom" ++ " ---\n") ::
          scanFilesContents 10000 [⟨"c.py", "./c.py", 4, .content "z"⟩] :=
  c9_digest_threshold_and_errors 10000 5 "a.py" "./a.py" "x" "boom" (.content "big")
    [⟨"b.py", "./b.py", 3, .content "y"⟩] [⟨"c.py", "./c.py", 4, .content "z"⟩]
    (by decide) (by decide)

/-- C10: CONFIRMED.  Rewriting the `boardName` field of every generator
reply changes nothing about a run (the field is never read), and every
`CreateBoard` mutation a run emits carries exactly
`deriveBoardName url cwd` — the name derived from the URL's final path
segment with a trailing ".git" stripped, or from the working directory's
base name.  The same derived name is what the lookup (`findBoard`)
matches against, by definition of `mainFull`.  Concrete derivations shown
in the last two conjuncts. -/
theorem c10_board_name_from_path_only (env : Env) (url : Option String)
    (cwd : String) (f : Option String → Option String) :
    mainFull (withGeminiMap env f) url cwd = mainFull env url cwd ∧
    ((mainFull env url cwd).1.all (boardNameOk (deriveBoardName url cwd))) = true ∧
    deriveBoardName (some "https://github.com/u/repo.git") "/srv" = "repo" ∧
    deriveBoardName none "/home/user/proj" = "proj" := by
  refine ⟨?_, ?_, by decide, by decide⟩
  · exact mainRun_gemini_map env f (deriveBoardName url cwd)
  · exact mainRun_all (boardNameOk (deriveBoardName url cwd)) (deriveBoardName url cwd)
      (fun _ _ => rfl) (fun _ _ _ => rfl) (by simp [boardNameOk]) env
